import Mathlib

set_option maxRecDepth 8192

/-!
Shallow embedding of `jsonweb/decode.py`: the typed-decoding dispatch engine.
Raw JSON values, the handler registry, the generated construction handler, the
per-object dispatch function and the per-call override resolver are translated
from the source; theorems below check the specification's claims against them.
-/

/-- Runtime values flowing through the decoder: JSON scalars and containers as
produced by the underlying parser, plus materialized class instances (the
dispatcher substitutes them bottom-up) and parsed datetimes (produced by the
timestamp coercion helper). An instance is rendered as its class name together
with its attribute assignments, modelling constructors that assign each
parameter to a same-named attribute (as the spec's `Person` does). -/
inductive JVal where
  | null
  | bool (b : Bool)
  | str (s : String)
  | num (n : Int)
  | arr (elems : List JVal)
  | obj (fields : List (String × JVal))
  | inst (cls : String) (attrs : List (String × JVal))
  | datetime (year month day hour minute second : Nat)

/-- A raw decoded JSON object: a Python dict with string keys, embedded as an
association list with unique keys (lookup takes the first match). -/
abbrev Dict := List (String × JVal)

/-- Python dict lookup `d.get(k)` / `k in d`: first matching key, if any. -/
def dictGet : Dict → String → Option JVal
  | [], _ => none
  | (k, v) :: rest, n => if k = n then some v else dictGet rest n

/-- Python dict assignment `d[k] = v`: replace the value at an existing key,
otherwise append the new binding. -/
def dictSet : Dict → String → JVal → Dict
  | [], n, t => [(n, t)]
  | (k, v) :: rest, n, t =>
    if k = n then (n, t) :: rest else (k, v) :: dictSet rest n t

/-- Exceptions raised by the decode module, structured by kind. `keyError`
carries the key (`e.args[0]`); `objectNotFound` the discriminator value
(`ObjectNotFoundError.obj_type`); `objectAttributeError` the discriminator
value and the missing attribute (`ObjectAttributeError`); `typeError`,
`attributeError`, `indexError` and `jsonWebError` model the corresponding
Python exception classes where the payload is irrelevant to the claims. -/
inductive JErr where
  | keyError (k : JVal)
  | typeError
  | attributeError
  | indexError
  | objectNotFound (objType : JVal)
  | objectAttributeError (objType : JVal) (attr : JVal)
  | jsonWebError

/-- A constructor parameter as seen by `inspect`: its name and, when present,
its declared default value. -/
structure PyParam where
  name : String
  default : Option JVal

/-- A Python class as far as this module observes it: its `__name__` and the
parameter list of its `__init__` (the implicit `self` excluded). Calling the
class binds arguments to parameters and yields an instance whose attributes
are exactly those bindings, modelling constructors that assign each parameter
to a same-named attribute. -/
structure PyClass where
  name : String
  params : List PyParam

/-- A construction handler stored in the registry: either a
`JsonWebObjectHandler` generated from a constructor signature (its required
argument names and optional `(name, default)` pairs, `kwArgs = none` modelling
Python `None`), or a user-supplied callable identified by name whose behaviour
an environment supplies. -/
inductive Handler where
  | generated (args : List String) (kwArgs : Option (List (String × JVal)))
  | user (name : String)

/-- A registry entry: the `(handler, cls, schema)` tuple stored by
`_ObjectHandlers`. The schema is an opaque validator capability identified by
name; `none` models Python `None`. -/
structure HandlerTuple where
  handler : Handler
  cls : PyClass
  schema : Option String

/-- The `_ObjectHandlers` mapping from discriminator string to handler tuple:
a Python dict embedded as an association list with unique keys. -/
abbrev Registry := List (String × HandlerTuple)

/-- Registry lookup `_ObjectHandlers.get` / `__getitem__` / `__contains__`. -/
def regGet : Registry → String → Option HandlerTuple
  | [], _ => none
  | (k, v) :: rest, n => if k = n then some v else regGet rest n

/-- Registry store `_ObjectHandlers.set`: dict assignment, replacing the value
at an existing key or appending a new binding. -/
def regSet : Registry → String → HandlerTuple → Registry
  | [], n, t => [(n, t)]
  | (k, v) :: rest, n, t =>
    if k = n then (n, t) :: rest else (k, v) :: regSet rest n t

/-- Python call semantics for a modelled class, `cls(*posArgs, **kwArgs)`:
positional arguments bind the leading constructor parameters in order, the
remaining parameters are filled from keyword arguments by name or from their
declared defaults, and a binding failure (too many positionals, a duplicate
or unknown keyword, a missing required parameter) raises `TypeError`. The
constructor body assigns each parameter to a same-named attribute. -/
def bindParams : List PyParam → List JVal → List (String × JVal) →
    Except JErr (List (String × JVal))
  | [], [], kw => if kw.isEmpty then .ok [] else .error .typeError
  | [], _ :: _, _ => .error .typeError
  | p :: ps, v :: vs, kw =>
    if kw.any (fun q => q.1 = p.name) then .error .typeError
    else (bindParams ps vs kw).map (fun bs => (p.name, v) :: bs)
  | p :: ps, [], kw =>
    match kw.find? (fun q => q.1 = p.name) with
    | some q =>
      (bindParams ps [] (kw.filter (fun r => ¬ r.1 = p.name))).map
        (fun bs => (p.name, q.2) :: bs)
    | none =>
      match p.default with
      | some d => (bindParams ps [] kw).map (fun bs => (p.name, d) :: bs)
      | none => .error .typeError

/-- Calling a modelled Python class: bind the arguments to the constructor
parameters and materialize the instance. -/
def pyCall (cls : PyClass) (posArgs : List JVal) (kwArgs : List (String × JVal)) :
    Except JErr JVal :=
  (bindParams cls.params posArgs kwArgs).map (fun bs => JVal.inst cls.name bs)

/-- The required-argument extraction loop of `JsonWebObjectHandler.__call__`:
`for arg in self.args: cls_args.append(obj[arg])` — a missing key raises
`KeyError(arg)`. -/
def extractArgs (obj : Dict) : List String → Except JErr (List JVal)
  | [] => .ok []
  | a :: rest =>
    match dictGet obj a with
    | none => .error (.keyError (.str a))
    | some v => (extractArgs obj rest).map (fun vs => v :: vs)

/-- The body of `JsonWebObjectHandler.__call__(cls, obj)`: extract each
required argument with `obj[arg]`, fill each optional argument with
`obj.get(key, default)`, then invoke `cls(*cls_args, **cls_kw_args)`.
Iterating `kwArgs.getD []` renders the `if self.kw_args:` guard, whose falsy
branch (None or empty) contributes no keyword arguments either way. -/
def JsonWebObjectHandler.call (args : List String)
    (kwArgs : Option (List (String × JVal))) (cls : PyClass) (obj : Dict) :
    Except JErr JVal :=
  match extractArgs obj args with
  | .error e => .error e
  | .ok clsArgs =>
    pyCall cls clsArgs
      ((kwArgs.getD []).map (fun kd => (kd.1, (dictGet obj kd.1).getD kd.2)))

/-- Invoking a registry entry's construction handler `factory(cls, obj)`:
generated handlers run `JsonWebObjectHandler.__call__`; user-supplied
callables are resolved through the environment `ue`. -/
def callHandler (ue : String → PyClass → Dict → Except JErr JVal) :
    Handler → PyClass → Dict → Except JErr JVal
  | .generated args kwArgs, cls, obj => JsonWebObjectHandler.call args kwArgs cls obj
  | .user n, cls, obj => ue n cls obj

/-- Hashability of a decoded JSON value as a Python dict key: lists and dicts
are unhashable, every other value the parser or the decoder produces can be
looked up in the handler mapping. -/
def JVal.hashable : JVal → Bool
  | .arr _ => false
  | .obj _ => false
  | _ => true

/-- Lookup of a hashable `__type__` value in the handler mapping
`self.handlers[obj_type]`: registry keys are strings, so any non-string
(hashable) discriminator misses. -/
def lookupByVal (handlers : Registry) : JVal → Option HandlerTuple
  | .str s => regGet handlers s
  | _ => none

/-- The per-object dispatch `ObjectHook.decode_obj(obj)`: objects without a
`__type__` key pass through unchanged; the discriminator is looked up in the
effective registry (`except KeyError` maps a miss to `ObjectNotFoundError`,
while the `TypeError` of an unhashable key propagates uncaught); a registered
schema validates the object through `se` first, its failures propagating
unchanged; finally `factory(cls, obj)` runs, a `KeyError` from it being
wrapped as `ObjectAttributeError(obj_type, e.args[0])` and every other
exception propagating unchanged. -/
def decode_obj (se : String → Dict → Except JErr Dict)
    (ue : String → PyClass → Dict → Except JErr JVal)
    (handlers : Registry) (obj : Dict) : Except JErr JVal :=
  match dictGet obj "__type__" with
  | none => .ok (.obj obj)
  | some objType =>
    if objType.hashable then
      match lookupByVal handlers objType with
      | none => .error (.objectNotFound objType)
      | some entry =>
        match (match entry.schema with
               | none => Except.ok obj
               | some s => se s obj) with
        | .error e => .error e
        | .ok obj2 =>
          match callHandler ue entry.handler entry.cls obj2 with
          | .ok v => .ok v
          | .error (.keyError k) => .error (.objectAttributeError objType k)
          | .error e => .error e
    else .error .typeError

/-- Registration `_ObjectHandlers.add_handler(cls, handler, type_name, schema)`:
stores the tuple under `type_name or cls.__name__` (an absent or empty — falsy
— type name falls back to the class name), overwriting any previous entry. -/
def add_handler (reg : Registry) (cls : PyClass) (handler : Handler)
    (type_name : Option String) (schema : Option String) : Registry :=
  regSet reg
    (match type_name with
     | some tn => if tn = "" then cls.name else tn
     | none => cls.name)
    ⟨handler, cls, schema⟩

/-- Partial update `_ObjectHandlers.update_handler(name, cls, handler, schema)`:
fetches the existing tuple (`KeyError` when absent) and rebuilds it as
`(handler or old[0], cls or old[1], schema or old[2])`; a parameter left at its
`None` default — whether omitted or passed explicitly — is falsy and keeps the
existing component, since the live values (classes, handler objects, schema
classes) are always truthy. -/
def update_handler (reg : Registry) (name : String) (cls : Option PyClass)
    (handler : Option Handler) (schema : Option String) : Except JErr Registry :=
  match regGet reg name with
  | none => .error (.keyError (.str name))
  | some old =>
    .ok (regSet reg name
      ⟨handler.getD old.handler, cls.getD old.cls,
       match schema with
       | some s => some s
       | none => old.schema⟩)

/-- Shallow clone `_ObjectHandlers.copy()`: a fresh mapping populated by
iterating the source's items and `set`ting each into the new registry. -/
def copyReg (reg : Registry) : Registry :=
  reg.foldl (fun acc nt => regSet acc nt.1 nt.2) []

/-- A per-call override entry, the `handler_dict` of `object_hook`'s
`handlers` argument: a dict that may carry `cls`, `handler` and `schema`
keys. `none` models an absent key (and equally an explicit `None`, the only
falsy value these slots can take). -/
structure HandlerDict where
  cls : Option PyClass
  handler : Option Handler
  schema : Option String

/-- One iteration of `object_hook`'s override loop: an already-registered
discriminator gets `update_handler(name, **handler_dict)`; a new one requires
the `cls` key (`handler_dict.pop('cls')` raises `KeyError('cls')` otherwise)
and then calls `add_handler(cls, **handler_dict)` — whose required positional
`handler` parameter raises `TypeError` when the override supplies none, and
which keys the new entry by `cls.__name__` since no `type_name` is passed. -/
def apply_override (reg : Registry) (name : String) (hd : HandlerDict) :
    Except JErr Registry :=
  if (regGet reg name).isSome then
    update_handler reg name hd.cls hd.handler hd.schema
  else
    match hd.cls with
    | none => .error (.keyError (.str "cls"))
    | some c =>
      match hd.handler with
      | none => .error .typeError
      | some h => .ok (add_handler reg c h none hd.schema)

/-- The registry-resolution half of `object_hook(handlers, as_type)`: a falsy
`handlers` argument (absent or an empty dict) aliases the process-wide default
registry; otherwise the default is `copy()`ed and each override is merged into
the copy. -/
def object_hook_build (defaultReg : Registry)
    (overrides : Option (List (String × HandlerDict))) : Except JErr Registry :=
  match overrides with
  | none => .ok defaultReg
  | some [] => .ok defaultReg
  | some hs => hs.foldlM (fun acc nhd => apply_override acc nhd.1 nhd.2) (copyReg defaultReg)

/-- The per-object closure returned by `object_hook`: a truthy `as_type`
injects `obj["__type__"] = as_type` into every raw object before dispatch (an
empty string is falsy and injects nothing), then `decode_obj` runs against the
effective registry. -/
def hook_handler (se : String → Dict → Except JErr Dict)
    (ue : String → PyClass → Dict → Except JErr JVal)
    (eff : Registry) (asType : Option String) (obj : Dict) : Except JErr JVal :=
  match asType with
  | some t =>
    if t = "" then decode_obj se ue eff obj
    else decode_obj se ue eff (dictSet obj "__type__" (.str t))
  | none => decode_obj se ue eff obj

/-- A whole decode call against the process-wide default registry, returning
the call's result together with the default registry as it stands after the
call. The source never rebinds the module-level `_default_object_handlers` in
this path and never mutates it: with overrides present every `update_handler`
and `add_handler` targets the fresh `copy()`, and without overrides the
aliased default is only read — so the post-call default is the pre-call
default. -/
def decode_call (se : String → Dict → Except JErr Dict)
    (ue : String → PyClass → Dict → Except JErr JVal)
    (defaultReg : Registry) (overrides : Option (List (String × HandlerDict)))
    (asType : Option String) (obj : Dict) : Except JErr JVal × Registry :=
  (match object_hook_build defaultReg overrides with
   | .error e => .error e
   | .ok eff => hook_handler se ue eff asType obj,
   defaultReg)

/-- The shape `inspect.getargspec` reports for a constructor: the named
parameters in declaration order (including the implicit receiver when the
function is a method) and the default values, which the language aligns with
the trailing parameters. An empty `defaults` list models `None`. -/
structure ArgSpec where
  args : List String
  defaults : List JVal

/-- Result of `get_arg_spec`: `None` when no named parameters remain after
dropping the receiver, otherwise the `(args, kw_args)` pair; `indexError`
renders `args.pop()` on an exhausted list (unreachable for the shapes
`getargspec` can report). -/
inductive ArgSpecResult where
  | noArgs
  | spec (args : List String) (kwArgs : List (String × JVal))
  | indexError

/-- The `for default in reversed(defaults): kw_args.append((args.pop(), default))`
loop of `get_arg_spec`, with the argument list reversed so that `args.pop()`
— removal from the right end — becomes structural: the first remaining
reversed-argument is the popped one. Returns the surviving (still reversed)
argument list and the accumulated `kw_args` in append order. -/
def popSpecGo : List String → List JVal → Option (List String × List (String × JVal))
  | ra, [] => some (ra, [])
  | [], _ :: _ => none
  | a :: ra, d :: ds => (popSpecGo ra ds).map (fun r => (r.1, (a, d) :: r.2))

/-- The generator's signature analysis `get_arg_spec(func)`: drop a leading
`self`, return `None` when no named parameters remain, then pair each default
(iterated in reverse) with the argument popped from the end of the list,
leaving the defaultless prefix as the required arguments. -/
def get_arg_spec (spec : ArgSpec) : ArgSpecResult :=
  let args := match spec.args with
    | "self" :: rest => rest
    | other => other
  if args = [] then .noArgs
  else
    match popSpecGo args.reverse spec.defaults.reverse with
    | none => .indexError
    | some r => .spec r.1.reverse r.2

/-- The `getargspec` view of a modelled class's `__init__`: a leading `self`,
then the parameter names in declaration order, with the declared defaults as
the trailing defaults tuple. Python's grammar puts every defaulted parameter
after all required ones, so the defaults align with the trailing names. -/
def PyClass.argSpec (c : PyClass) : ArgSpec :=
  ⟨"self" :: c.params.map PyParam.name, c.params.filterMap PyParam.default⟩

/-- Handler generation `get_jsonweb_handler(cls)`: analyse `cls.__init__`,
raise `JsonWebError` when the analysis reports `None` (no named parameters),
and otherwise build `JsonWebObjectHandler(args, kw or None)` — an empty
`kw_args` list is falsy and is stored as `None`. -/
def get_jsonweb_handler (cls : PyClass) : Except JErr Handler :=
  match get_arg_spec cls.argSpec with
  | .noArgs => .error .jsonWebError
  | .indexError => .error .indexError
  | .spec args kws => .ok (.generated args (if kws.isEmpty then none else some kws))

/-- Registration through the `from_object(handler, type_name, schema)`
decorator: a falsy `handler` argument makes the wrapper generate one from the
class's constructor (propagating the generator's `JsonWebError`), then
`add_handler` stores the entry in the default registry. -/
def from_object_register (handler : Option Handler) (type_name : Option String)
    (schema : Option String) (cls : PyClass) (reg : Registry) :
    Except JErr Registry :=
  match (match handler with
         | some h => Except.ok h
         | none => get_jsonweb_handler cls) with
  | .error e => .error e
  | .ok h => .ok (add_handler reg cls h type_name schema)

/-- Two-digit field of the fixed timestamp format. -/
def char2d (a b : Char) : Option Nat :=
  if a.isDigit && b.isDigit then some ((a.toNat - 48) * 10 + (b.toNat - 48))
  else none

/-- Four-digit field of the fixed timestamp format. -/
def char4d (a b c d : Char) : Option Nat :=
  if a.isDigit && b.isDigit && c.isDigit && d.isDigit then
    some ((((a.toNat - 48) * 10 + (b.toNat - 48)) * 10 + (c.toNat - 48)) * 10
      + (d.toNat - 48))
  else none

/-- Gregorian leap-year rule, as the datetime library validates days. -/
def isLeap (y : Nat) : Bool :=
  y % 4 = 0 && (decide (y % 100 ≠ 0) || y % 400 = 0)

/-- Days in a month, as the datetime library validates the day field. -/
def daysInMonth (y m : Nat) : Nat :=
  if m = 2 then (if isLeap y then 29 else 28)
  else if m = 4 || m = 6 || m = 9 || m = 11 then 30
  else 31

/-- Modelled stdlib collaborator: `datetime.strptime(s, "%Y-%m-%dT%H:%M:%S")`,
accepting the canonical zero-padded rendering of the one fixed format with
calendar-valid fields, and rejecting everything else (`ValueError`). -/
def parseDatetime (s : String) : Option JVal :=
  match s.toList with
  | [y1, y2, y3, y4, '-', mo1, mo2, '-', d1, d2, 'T',
     h1, h2, ':', mi1, mi2, ':', s1, s2] =>
    match char4d y1 y2 y3 y4, char2d mo1 mo2, char2d d1 d2,
          char2d h1 h2, char2d mi1 mi2, char2d s1 s2 with
    | some y, some mo, some d, some h, some mi, some se =>
      if 1 ≤ y && 1 ≤ mo && mo ≤ 12 && 1 ≤ d && d ≤ daysInMonth y mo
          && h ≤ 23 && mi ≤ 59 && se ≤ 59 then
        some (.datetime y mo d h mi se)
      else none
    | _, _, _, _, _, _ => none
  | _ => none

/-- The timestamp coercion helper `ObjectHook._datetime(dt)` as the source
executes it: `None` passes through; a parsable string returns the datetime; a
string the format rejects raises `ValueError`, whose except-clause then calls
`ObjectDecodeError(e.args[0])` with its required `error_sub_type` argument
missing and so raises `TypeError` instead of a decode failure; a non-string
raises `TypeError` from `strptime`, whose except-clause evaluates the
undefined attribute `self.obj` and so raises `AttributeError` instead of a
decode failure. -/
def ObjectHook._datetime (dt : JVal) : Except JErr JVal :=
  match dt with
  | .null => .ok .null
  | .str s =>
    match parseDatetime s with
    | some v => .ok v
    | none => .error .typeError
  | _ => .error .attributeError

/-- Schema environment for decode calls that involve no registered schema:
never consulted in those runs; validation passes the object through. -/
def noSchemaEnv : String → Dict → Except JErr Dict := fun _ o => .ok o

/-- User-handler environment for decode calls that involve only generated
handlers: never consulted in those runs. -/
def noUserEnv : String → PyClass → Dict → Except JErr JVal :=
  fun _ _ _ => .error .typeError

/-- The spec's running example: `class Person` with required `first_name` and
`last_name` and optional `gender=None`. -/
def Person : PyClass :=
  ⟨"Person", [⟨"first_name", none⟩, ⟨"last_name", none⟩, ⟨"gender", some .null⟩]⟩

/-- The default registry after `@from_object()` has decorated `Person`: the
entry the generator produces for it, keyed by the class name. -/
def personReg : Registry :=
  [("Person", ⟨.generated ["first_name", "last_name"] (some [("gender", .null)]),
    Person, none⟩)]

/-- A registry entry stored under a fixed discriminator via a user handler and
a registered schema, used to exercise override updates. -/
def schemaReg : Registry :=
  [("Person", ⟨.user "ph", Person, some "PersonSchema"⟩)]

/-- User-handler environment that raises `KeyError(7)` — a key error whose
argument is not a field name at all — used to exercise the dispatcher's
blanket `except KeyError` wrapping. -/
def boomEnv : String → PyClass → Dict → Except JErr JVal :=
  fun _ _ _ => .error (.keyError (.num 7))

/-- Storing a tuple and looking up the same discriminator returns that tuple,
whether the store replaced an existing binding or appended a new one. -/
theorem regGet_regSet_self (reg : Registry) (n : String) (t : HandlerTuple) :
    regGet (regSet reg n t) n = some t := by
  induction reg with
  | nil => simp [regSet, regGet]
  | cons p rest ih =>
    obtain ⟨pk, pv⟩ := p
    by_cases h : pk = n
    · simp [regSet, regGet, h]
    · simp [regSet, regGet, h, ih]

/-- Dict assignment at a key the dict does not bind appends the binding. -/
theorem dictSet_absent (obj : Dict) (k : String) (v : JVal)
    (h : dictGet obj k = none) : dictSet obj k v = obj ++ [(k, v)] := by
  induction obj with
  | nil => rfl
  | cons p rest ih =>
    obtain ⟨pk, pv⟩ := p
    by_cases hk : pk = k
    · simp [dictGet, hk] at h
    · simp only [dictGet, hk, if_false, ite_false] at h
      simp [dictSet, hk, ih h]

/-- The required-argument extraction loop fails on the first absent required
field, raising `KeyError` with exactly that field's name. -/
theorem extractArgs_first_missing (obj : Dict) :
    ∀ args : List String, (∃ a ∈ args, dictGet obj a = none) →
      ∃ a, a ∈ args ∧ dictGet obj a = none ∧
        extractArgs obj args = .error (.keyError (.str a)) := by
  intro args
  induction args with
  | nil => rintro ⟨a, ha, _⟩; cases ha
  | cons a rest ih =>
    rintro ⟨b, hb, hbn⟩
    cases h : dictGet obj a with
    | none => exact ⟨a, List.mem_cons_self a rest, h, by simp [extractArgs, h]⟩
    | some v =>
      have hbr : b ∈ rest := by
        rcases List.mem_cons.mp hb with rfl | hr
        · rw [h] at hbn; cases hbn
        · exact hr
      obtain ⟨c, hc, hcn, hce⟩ := ih ⟨b, hbr, hbn⟩
      exact ⟨c, List.mem_cons_of_mem a hc, hcn,
        by simp [extractArgs, h, hce, Except.map]⟩

/-- C1: call isolation of per-call overrides — a decode call that supplies
overrides (including ones redefining an already-registered discriminator)
leaves the default registry exactly as it was: the post-call default equals
the pre-call default, every discriminator still resolves to the same entry,
and a subsequent override-free decode call behaves as it would have before
the overridden call. -/
theorem call_isolation_default_registry
    (se : String → Dict → Except JErr Dict)
    (ue : String → PyClass → Dict → Except JErr JVal)
    (d : Registry) (hs : List (String × HandlerDict)) (a a2 : Option String)
    (o o2 : Dict) (n : String) :
    (decode_call se ue d (some hs) a o).2 = d ∧
    regGet (decode_call se ue d (some hs) a o).2 n = regGet d n ∧
    decode_call se ue (decode_call se ue d (some hs) a o).2 none a2 o2
      = decode_call se ue d none a2 o2 :=
  ⟨rfl, rfl, rfl⟩

/-- C2: round trip with optional-default substitution — registering `Person`
(required `first_name`, `last_name`; optional `gender` defaulting to null)
through the decorator and decoding an object that omits `gender` yields a
`Person` instance carrying the two supplied fields and `gender = null`. -/
theorem round_trip_person_optional_default :
    from_object_register none none none Person [] = .ok personReg ∧
    decode_obj noSchemaEnv noUserEnv personReg
      [("__type__", .str "Person"), ("first_name", .str "Shawn"),
       ("last_name", .str "Adams")]
    = .ok (.inst "Person"
        [("first_name", .str "Shawn"), ("last_name", .str "Adams"),
         ("gender", .null)]) :=
  ⟨rfl, rfl⟩

/-- C3: missing required field — for a type whose registry entry carries the
handler the generator produced for it (and no schema), decoding an object
that carries the type's discriminator but lacks one of the generated
handler's required fields raises `ObjectAttributeError` carrying both that
type name and the name of an absent required field (the first one, in
declaration order). -/
theorem missing_required_field_error
    (se : String → Dict → Except JErr Dict)
    (ue : String → PyClass → Dict → Except JErr JVal)
    (reg : Registry) (obj : Dict) (tname : String) (cls : PyClass)
    (args : List String) (kws : Option (List (String × JVal)))
    (_hgen : get_jsonweb_handler cls = .ok (.generated args kws))
    (hreg : regGet reg tname = some ⟨.generated args kws, cls, none⟩)
    (htype : dictGet obj "__type__" = some (.str tname))
    (hmiss : ∃ a ∈ args, dictGet obj a = none) :
    ∃ a, a ∈ args ∧ dictGet obj a = none ∧
      decode_obj se ue reg obj
        = .error (.objectAttributeError (.str tname) (.str a)) := by
  obtain ⟨a, ha, han, hae⟩ := extractArgs_first_missing obj args hmiss
  refine ⟨a, ha, han, ?_⟩
  simp [decode_obj, htype, JVal.hashable, lookupByVal, hreg, callHandler,
        JsonWebObjectHandler.call, hae]

/-- C3 witness: decoding the spec's `Person` object that omits `last_name`
raises the missing-attribute failure naming `Person` and `last_name`. -/
theorem missing_required_field_error_witness :
    ∃ a, a ∈ ["first_name", "last_name"] ∧
      dictGet [("__type__", JVal.str "Person"), ("first_name", JVal.str "Shawn")] a
        = none ∧
      decode_obj noSchemaEnv noUserEnv personReg
        [("__type__", .str "Person"), ("first_name", .str "Shawn")]
      = .error (.objectAttributeError (.str "Person") (.str a)) :=
  missing_required_field_error noSchemaEnv noUserEnv personReg
    [("__type__", .str "Person"), ("first_name", .str "Shawn")] "Person" Person
    ["first_name", "last_name"] (some [("gender", .null)])
    rfl rfl rfl ⟨"last_name", by decide, rfl⟩

/-- C4 counterexample: a raw object whose `__type__` value is a JSON array
has no entry in the (empty) effective registry, yet decoding raises the
`TypeError` of hashing an unhashable dict key — which only `except KeyError`
would have turned into the unknown-type failure — rather than an
unknown-type failure carrying the discriminator value. -/
theorem unknown_discriminator_counterexample :
    decode_obj noSchemaEnv noUserEnv [] [("__type__", .arr [])]
      = .error .typeError ∧
    decode_obj noSchemaEnv noUserEnv [] [("__type__", .arr [])]
      ≠ .error (.objectNotFound (.arr [])) := by
  refine ⟨rfl, ?_⟩
  intro h
  rw [show decode_obj noSchemaEnv noUserEnv [] [("__type__", JVal.arr [])]
        = .error .typeError from rfl] at h
  injection h with h2
  exact JErr.noConfusion h2

/-- C4 amended: a raw object without a `__type__` key passes through
unchanged; one whose `__type__` value is hashable (not a JSON array or
object) and has no entry in the effective registry raises the unknown-type
failure carrying that value; and one whose `__type__` value is unhashable
raises `TypeError` instead, whatever the registry holds. -/
theorem unknown_discriminator_amended
    (se : String → Dict → Except JErr Dict)
    (ue : String → PyClass → Dict → Except JErr JVal)
    (reg : Registry) (obj : Dict) :
    (dictGet obj "__type__" = none → decode_obj se ue reg obj = .ok (.obj obj)) ∧
    (∀ v : JVal, dictGet obj "__type__" = some v → v.hashable = true →
      lookupByVal reg v = none →
      decode_obj se ue reg obj = .error (.objectNotFound v)) ∧
    (∀ v : JVal, dictGet obj "__type__" = some v → v.hashable = false →
      decode_obj se ue reg obj = .error .typeError) := by
  refine ⟨?_, ?_, ?_⟩
  · intro h; simp [decode_obj, h]
  · intro v hv hh hl; simp [decode_obj, hv, hh, hl]
  · intro v hv hh; simp [decode_obj, hv, hh]

/-- C4 witness: the spec's unregistered `Jedi` discriminator raises the
unknown-type failure naming `Jedi`, and an object with no discriminator key
passes through as the plain map. -/
theorem unknown_discriminator_amended_witness :
    decode_obj noSchemaEnv noUserEnv personReg
      [("__type__", .str "Jedi"), ("name", .str "Luke")]
      = .error (.objectNotFound (.str "Jedi")) ∧
    decode_obj noSchemaEnv noUserEnv personReg [("name", .str "Luke")]
      = .ok (.obj [("name", .str "Luke")]) :=
  ⟨(unknown_discriminator_amended noSchemaEnv noUserEnv personReg
      [("__type__", .str "Jedi"), ("name", .str "Luke")]).2.1
      (.str "Jedi") rfl rfl rfl,
   (unknown_discriminator_amended noSchemaEnv noUserEnv personReg
      [("name", .str "Luke")]).1 rfl⟩

/-- C5 counterexample: a per-call override for a discriminator absent from
the default registry that supplies a class but omits the construction
handler does not get one generated on demand — building the effective
registry raises the `TypeError` of calling `add_handler` without its
required positional `handler` argument, and no entry is added. -/
theorem override_generation_counterexample :
    object_hook_build [] (some [("Foo", ⟨some Person, none, none⟩)])
      = .error .typeError :=
  rfl

/-- C5 amended: for a per-call override whose discriminator is absent from
the registry, the class is required (`KeyError('cls')` otherwise) and the
construction handler is required as well — omitting it raises `TypeError`
rather than generating one on demand — and when both are supplied the new
entry is added keyed by the class's own name (not necessarily the override
mapping's key), carrying the supplied handler, class and schema. -/
theorem override_new_discriminator_amended (reg : Registry) (name : String)
    (c : PyClass) (s : Option String)
    (habs : regGet reg name = none) :
    apply_override reg name ⟨some c, none, s⟩ = .error .typeError ∧
    (∀ h : Handler, apply_override reg name ⟨some c, some h, s⟩
        = .ok (regSet reg c.name ⟨h, c, s⟩)) ∧
    apply_override reg name ⟨none, none, s⟩ = .error (.keyError (.str "cls")) := by
  have hs : (regGet reg name).isSome = false := by rw [habs]; rfl
  refine ⟨?_, ?_, ?_⟩ <;> simp [apply_override, hs, add_handler]

/-- C5 witness: on the empty registry, an override for the new key `Foo`
supplying `Person` and a handler adds the entry under `Person` (the class
name), while the same override without a handler fails with `TypeError`. -/
theorem override_new_discriminator_amended_witness :
    apply_override [] "Foo" ⟨some Person, some (.user "ph"), none⟩
      = .ok [("Person", ⟨.user "ph", Person, none⟩)] ∧
    apply_override [] "Foo" ⟨some Person, none, none⟩ = .error .typeError :=
  ⟨(override_new_discriminator_amended [] "Foo" Person none rfl).2.1 (.user "ph"),
   (override_new_discriminator_amended [] "Foo" Person none rfl).1⟩

/-- C6: forcedType idempotence on flat input — decoding a raw object with no
`__type__` key under a forced type `t` (any truthy, i.e. non-empty, type
name — registered names always are, being class names or non-empty explicit
names) equals an override-free decode of the same object carrying an
explicit `__type__` entry with value `t`. -/
theorem forced_type_flat_idempotence
    (se : String → Dict → Except JErr Dict)
    (ue : String → PyClass → Dict → Except JErr JVal)
    (reg : Registry) (t : String) (obj : Dict)
    (hflat : dictGet obj "__type__" = none) (ht : ¬ t = "") :
    hook_handler se ue reg (some t) obj
      = hook_handler se ue reg none (obj ++ [("__type__", .str t)]) := by
  simp [hook_handler, ht, dictSet_absent obj "__type__" (.str t) hflat]

/-- C6 witness: decoding the flat bob/smith object with forced type `Person`
equals decoding it with the explicit `__type__` entry appended, and both
yield the materialized `Person`. -/
theorem forced_type_flat_idempotence_witness :
    hook_handler noSchemaEnv noUserEnv personReg (some "Person")
      [("first_name", .str "bob"), ("last_name", .str "smith")]
    = hook_handler noSchemaEnv noUserEnv personReg none
        ([("first_name", .str "bob"), ("last_name", .str "smith")]
          ++ [("__type__", .str "Person")]) ∧
    hook_handler noSchemaEnv noUserEnv personReg (some "Person")
      [("first_name", .str "bob"), ("last_name", .str "smith")]
    = .ok (.inst "Person"
        [("first_name", .str "bob"), ("last_name", .str "smith"),
         ("gender", .null)]) :=
  ⟨forced_type_flat_idempotence noSchemaEnv noUserEnv personReg "Person"
    [("first_name", .str "bob"), ("last_name", .str "smith")] rfl (by decide),
   rfl⟩

/-- Popping arguments for a reversed defaults list of exactly the length of a
leading segment consumes that segment pairwise and leaves the rest. -/
theorem popSpecGo_append (x : List String) (rds : List JVal) (y : List String)
    (h : x.length = rds.length) :
    popSpecGo (x ++ y) rds = some (y, x.zip rds) := by
  induction x generalizing rds with
  | nil =>
    cases rds with
    | nil => simp [popSpecGo]
    | cons d ds => simp at h
  | cons a xs ih =>
    cases rds with
    | nil => simp at h
    | cons d ds =>
      simp [popSpecGo, ih ds (by simpa using h)]

/-- Zipping two reversed lists of equal length zips and then reverses. -/
theorem zip_reverse_of_length_eq {α β : Type} (l1 : List α) (l2 : List β)
    (h : l1.length = l2.length) :
    l1.reverse.zip l2.reverse = (l1.zip l2).reverse := by
  induction l1 generalizing l2 with
  | nil =>
    cases l2 with
    | nil => rfl
    | cons b bs => simp at h
  | cons a as ih =>
    cases l2 with
    | nil => simp at h
    | cons b bs =>
      have hlen : as.reverse.length = bs.reverse.length := by
        simpa using Nat.succ.inj h
      simp only [List.reverse_cons, List.zip_cons_cons,
        List.zip_append hlen, ih bs (Nat.succ.inj h)]
      simp

/-- C7 counterexample: for `def __init__(self, a, b=1, c=2)` — getargspec
args `[self, a, b, c]`, defaults `(1, 2)` — the generator returns required
`[a]` and optional `[(c, 2), (b, 1)]`: each name is paired with its own
default, but the optional sequence runs in reverse declaration order, not
declaration order. -/
theorem arg_spec_order_counterexample :
    get_arg_spec ⟨["self", "a", "b", "c"], [.num 1, .num 2]⟩
      = .spec ["a"] [("c", .num 2), ("b", .num 1)] ∧
    [("c", JVal.num 2), ("b", JVal.num 1)].map Prod.fst ≠ ["b", "c"] :=
  ⟨rfl, by decide⟩

/-- C7 amended: for a constructor parameter list of required names `req`
followed by defaulted names `opt` (the language aligns defaults with the
trailing parameters), the generator partitions correctly and pairs each
optional name with its own default; the required sequence preserves
declaration order, while the optional sequence is produced in reverse
declaration order. -/
theorem arg_spec_partition_amended (req opt : List String) (defs : List JVal)
    (hne : ¬ req ++ opt = []) (hlen : opt.length = defs.length) :
    get_arg_spec ⟨"self" :: (req ++ opt), defs⟩
      = .spec req ((opt.zip defs).reverse) := by
  have hrev : (req ++ opt).reverse = opt.reverse ++ req.reverse :=
    List.reverse_append req opt
  have hlen2 : opt.reverse.length = defs.reverse.length := by simpa using hlen
  simp only [get_arg_spec, hne, if_false, ite_false, hrev,
    popSpecGo_append opt.reverse defs.reverse req.reverse hlen2,
    List.reverse_reverse, zip_reverse_of_length_eq opt defs hlen]

/-- C7 witness: the `Person` signature — required `first_name`, `last_name`,
optional `gender=None` — partitions into those required names in order and
the single optional pair. -/
theorem arg_spec_partition_amended_witness :
    get_arg_spec ⟨"self" :: (["first_name", "last_name"] ++ ["gender"]),
        [JVal.null]⟩
      = .spec ["first_name", "last_name"]
          ((["gender"].zip [JVal.null]).reverse) :=
  arg_spec_partition_amended ["first_name", "last_name"] ["gender"] [.null]
    (by decide) rfl

/-- C8: the timestamp helper as the code actually runs — null passes through
and a string in the fixed format parses, but a string the format rejects
raises `TypeError` (the except-clause builds `ObjectDecodeError` without its
required `error_sub_type` argument) and a non-string raises
`AttributeError` (the except-clause reads the undefined `self.obj`), so
neither failure branch produces the decode failure the clause was written
to raise. -/
theorem datetime_helper_behaviour :
    ObjectHook._datetime .null = .ok .null ∧
    ObjectHook._datetime (.str "2012-01-14T12:30:05")
      = .ok (.datetime 2012 1 14 12 30 5) ∧
    ObjectHook._datetime (.str "not-a-date") = .error .typeError ∧
    ObjectHook._datetime (.num 5) = .error .attributeError :=
  ⟨rfl, rfl, rfl, rfl⟩

/-- C9: during dispatch, every `KeyError` the construction handler raises —
here a user-supplied handler, whatever its reason — is wrapped as
`ObjectAttributeError` naming the `KeyError`'s first argument as the field;
a successful construction is returned as is, and every non-`KeyError`
exception propagates unchanged. -/
theorem keyerror_wrapping
    (se : String → Dict → Except JErr Dict)
    (ue : String → PyClass → Dict → Except JErr JVal)
    (reg : Registry) (obj : Dict) (tname hn : String) (cls : PyClass)
    (hreg : regGet reg tname = some ⟨.user hn, cls, none⟩)
    (htype : dictGet obj "__type__" = some (.str tname)) :
    (∀ k : JVal, ue hn cls obj = .error (.keyError k) →
      decode_obj se ue reg obj = .error (.objectAttributeError (.str tname) k)) ∧
    (∀ v : JVal, ue hn cls obj = .ok v → decode_obj se ue reg obj = .ok v) ∧
    (∀ e : JErr, ue hn cls obj = .error e → (∀ k : JVal, ¬ e = .keyError k) →
      decode_obj se ue reg obj = .error e) := by
  refine ⟨?_, ?_, ?_⟩
  · intro k hk
    simp [decode_obj, htype, JVal.hashable, lookupByVal, hreg, callHandler, hk]
  · intro v hv
    simp [decode_obj, htype, JVal.hashable, lookupByVal, hreg, callHandler, hv]
  · intro e he hne
    cases e with
    | keyError k => exact absurd rfl (hne k)
    | typeError =>
      simp [decode_obj, htype, JVal.hashable, lookupByVal, hreg, callHandler, he]
    | attributeError =>
      simp [decode_obj, htype, JVal.hashable, lookupByVal, hreg, callHandler, he]
    | indexError =>
      simp [decode_obj, htype, JVal.hashable, lookupByVal, hreg, callHandler, he]
    | objectNotFound v =>
      simp [decode_obj, htype, JVal.hashable, lookupByVal, hreg, callHandler, he]
    | objectAttributeError v a =>
      simp [decode_obj, htype, JVal.hashable, lookupByVal, hreg, callHandler, he]
    | jsonWebError =>
      simp [decode_obj, htype, JVal.hashable, lookupByVal, hreg, callHandler, he]

/-- C9 witness: a user handler that raises `KeyError(7)` — an argument that
is no field name — still gets wrapped as the missing-attribute failure
naming the number 7 as the attribute. -/
theorem keyerror_wrapping_witness :
    decode_obj noSchemaEnv boomEnv [("Widget", ⟨.user "boom", Person, none⟩)]
      [("__type__", .str "Widget")]
    = .error (.objectAttributeError (.str "Widget") (.num 7)) :=
  (keyerror_wrapping noSchemaEnv boomEnv
    [("Widget", ⟨.user "boom", Person, none⟩)] [("__type__", .str "Widget")]
    "Widget" "boom" Person rfl rfl).1 (.num 7) rfl

/-- C10: in the registry's partial update, a field left at its falsy `None`
default — whether omitted or supplied as an explicit null — keeps the
existing component: the updated tuple is exactly
`(handler or old, cls or old, schema or old)`, the per-call override path
on an existing discriminator is the same update, and an entry whose schema
is set can never have it cleared back to null by any update. -/
theorem update_override_falsy_keeps_fields (reg : Registry) (name : String)
    (old : HandlerTuple) (c : Option PyClass) (h : Option Handler)
    (s : Option String)
    (hold : regGet reg name = some old) :
    update_handler reg name c h s
      = .ok (regSet reg name
          ⟨h.getD old.handler, c.getD old.cls,
           match s with
           | some x => some x
           | none => old.schema⟩) ∧
    apply_override reg name ⟨c, h, s⟩ = update_handler reg name c h s ∧
    (∀ reg2 : Registry, update_handler reg name c h s = .ok reg2 →
      old.schema.isSome = true →
      ∃ t : HandlerTuple, regGet reg2 name = some t ∧ t.schema.isSome = true) := by
  have hsome : (regGet reg name).isSome = true := by rw [hold]; rfl
  refine ⟨by simp [update_handler, hold], by simp [apply_override, hsome], ?_⟩
  intro reg2 hup hsch
  rw [update_handler, hold] at hup
  injection hup with hup2
  refine ⟨_, hup2 ▸ regGet_regSet_self reg name _, ?_⟩
  cases s with
  | some x => rfl
  | none => simpa using hsch

/-- C10 witness: updating the `Person` entry of a registry whose entry
carries a schema, with every argument left at `None`, returns the registry
with the entry unchanged — in particular the schema survives. -/
theorem update_override_falsy_keeps_fields_witness :
    update_handler schemaReg "Person" none none none = .ok schemaReg ∧
    (∃ t : HandlerTuple, regGet schemaReg "Person" = some t
      ∧ t.schema.isSome = true) :=
  ⟨(update_override_falsy_keeps_fields schemaReg "Person"
      ⟨.user "ph", Person, some "PersonSchema"⟩ none none none rfl).1,
   (update_override_falsy_keeps_fields schemaReg "Person"
      ⟨.user "ph", Person, some "PersonSchema"⟩ none none none rfl).2.2
      schemaReg rfl rfl⟩
